import Mathlib

/-
Verification development for the mergemock repository (Go).

The development shallowly embeds the parts of the source that the
checked properties are about:

* the consensus driver's slot-index computation (`ConsensusCmd.RunNode`,
  `signedSlot := int64(math.Round(float64(tick.Sub(genesisTime)) / float64(c.SlotTime)))`),
  modelled with exact rational arithmetic in place of float64;
* the epoch-boundary rotation of the finalized/safe/nextFinalized hashes;
* the per-tick handling of the pending PayloadID channel
  (gap / invalid-hash / proposal / external-block branches);
* the relay backend: `verifySignature`, `handleRegisterValidator`,
  `handleGetHeader`, `handleGetPayload`, with the LRU payload cache.

External collaborators (the BLS library, SSZ hash-tree-roots, the missing
`types` package conversions) are abstracted as explicit function
parameters or modelled from the specification, as noted on each
definition.
-/

set_option autoImplicit false

/-! ## Slot arithmetic (ConsensusCmd.RunNode, slot index computation) -/

/-- Go's `math.Round`: round half away from zero, modelled on `ℚ`.
For `x ≥ 0` this is `⌊x + 1/2⌋`; for `x < 0` it is `⌈x - 1/2⌉`. -/
def goRound (q : ℚ) : ℤ :=
  if 0 ≤ q then ⌊q + 1 / 2⌋ else ⌈q - 1 / 2⌉

/-- The driver's slot index:
`signedSlot := int64(math.Round(float64(tick.Sub(genesisTime)) / float64(c.SlotTime)))`.
Times and durations are int64 nanosecond counts; the float64 division is
modelled by exact division in `ℚ`. -/
def signedSlot (now genesisTime slotTime : ℤ) : ℤ :=
  goRound (((now : ℚ) - (genesisTime : ℚ)) / (slotTime : ℚ))

/-! ## Epoch rotation (ConsensusCmd.RunNode, epoch-boundary branch) -/

/-- The driver's finality bookkeeping: the `finalizedHash`, `safeHash` and
`nextFinalized` variables of `RunNode`. Block hashes are abstracted as `ℕ`. -/
structure FinalityState where
  finalizedHash : ℕ
  safeHash : ℕ
  nextFinalized : ℕ
deriving DecidableEq

/-- One epoch-boundary rotation, translating the sequential assignments
`finalizedHash = nextFinalized; safeHash = finalizedHash; nextFinalized = head`
(where `head` is `c.mockChain.CurrentHeader().Hash()`). -/
def epochRotate (s : FinalityState) (head : ℕ) : FinalityState :=
  let finalizedHash := s.nextFinalized
  let safeHash := finalizedHash
  let nextFinalized := head
  ⟨finalizedHash, safeHash, nextFinalized⟩

/-- The finality state after `n` epoch boundaries have been crossed,
where `heads i` is the chain head observed at the `i`-th boundary
(0-indexed). -/
def runEpochBoundaries (s : FinalityState) (heads : ℕ → ℕ) : ℕ → FinalityState
  | 0 => s
  | n + 1 => epochRotate (runEpochBoundaries s heads n) (heads n)

/-! ## Per-tick PayloadID handling (ConsensusCmd.RunNode, steady-state branches) -/

/-- The observable action a steady-state tick takes after the epoch
rotation: mock a gap slot, send an invalid-hash payload, propose from a
pending PayloadID, or build an external block. -/
inductive TickAction where
  | gapSlot
  | invalidHash
  | proposal (id : ℕ)
  | externalBlock
deriving DecidableEq

/-- One steady-state tick of `RunNode`, restricted to its handling of the
pending PayloadID. `pending` is the value (if any) a producer goroutine
is offering on the `payloadId` channel at tick time; `gapSlot` and
`invalidHash` are the outcomes of the two RNG draws; `produced` is the
PayloadID (if any) the tick's own forkchoice update later hands to the
channel. Returns the value pending at the next tick and the action taken.

Translation of the branch structure: the gap branch drains the channel
with a non-blocking receive and continues; the invalid-hash branch
continues without touching the channel; otherwise a non-blocking receive
either consumes the pending id for a proposal or, when none is pending,
the tick builds an external block whose background forkchoice update may
produce a new id. -/
def slotTick (pending : Option ℕ) (gapSlot invalidHash : Bool) (produced : Option ℕ) :
    Option ℕ × TickAction :=
  if gapSlot then (none, .gapSlot)
  else if invalidHash then (pending, .invalidHash)
  else
    match pending with
    | some id => (none, .proposal id)
    | none => (produced, .externalBlock)

/-! ## BLS abstraction and signature verification (verifySignature / VerifySignature) -/

/-- Abstraction of the external BLS library (`prysmaticlabs/prysm` bls):
decoders for signature and public-key byte strings and the pairing check.
Decoded signatures / public keys and message roots are abstracted as `ℕ`. -/
structure BLSModel where
  signatureFromBytes : List ℕ → Option ℕ
  publicKeyFromBytes : List ℕ → Option ℕ
  verify : ℕ → ℕ → ℕ → Bool
deriving Inhabited

/-- The three failure modes of `verifySignature`, in source order:
the object's `HashTreeRoot()` fails, `bls.SignatureFromBytes` fails,
`bls.PublicKeyFromBytes` fails. -/
inductive VerifyErr where
  | commitment
  | sigDecode
  | pkDecode
deriving DecidableEq

/-- The relay's `verifySignature(obj, pk, s) (bool, error)`. A signable
object enters only through its (fallible) hash-tree-root, so `htr` stands
for `obj.HashTreeRoot()`. The Go `(bool, error)` pair is modelled as
`Bool × Option VerifyErr`. -/
def verifySignature (B : BLSModel) (htr : Option ℕ) (pk s : List ℕ) :
    Bool × Option VerifyErr :=
  match htr with
  | none => (false, some .commitment)
  | some msg =>
    match B.signatureFromBytes s with
    | none => (false, some .sigDecode)
    | some sig =>
      match B.publicKeyFromBytes pk with
      | none => (false, some .pkDecode)
      | some pubkey => (B.verify sig pubkey msg, none)

/-- The exported `types.VerifySignature`: its body in the source is
token-for-token identical to the relay's `verifySignature`. -/
def VerifySignature (B : BLSModel) (htr : Option ℕ) (pk s : List ℕ) :
    Bool × Option VerifyErr :=
  verifySignature B htr pk s

/-! ## LRU payload cache (hashicorp/golang-lru, capacity 10) -/

/-- Capacity of the relay's payload cache (`lru.New(10)`). -/
def relayCacheCapacity : ℕ := 10

/-- LRU `Add`: insert most-recently-used, displacing any entry with the
same key, and evict the least-recently-used entry beyond capacity.
The cache is a list of key/value pairs, most recent first. -/
def lruAdd {α : Type} (c : List (ℕ × α)) (k : ℕ) (v : α) : List (ℕ × α) :=
  ((k, v) :: c.filter (fun p => p.1 != k)).take relayCacheCapacity

/-- LRU `Get`: look up a key and, on a hit, mark the entry
most-recently-used. Returns the value (if found) and the updated cache. -/
def lruGet {α : Type} (c : List (ℕ × α)) (k : ℕ) : Option α × List (ℕ × α) :=
  match c.find? (fun p => p.1 == k) with
  | none => (none, c)
  | some p => (some p.2, (k, p.2) :: c.filter (fun q => q.1 != k))

/-! ## Relay data types -/

/-- `types.ExecutionPayloadV1` (engine form). Modelled from the spec:
the `types` package itself is not under src/; beyond the block hash the
remaining fields (parent hash, fee recipient, numbers, transactions, ...)
are abstracted into `parentHash` and an opaque `data` component. -/
structure ExecutionPayloadV1 where
  blockHash : ℕ
  parentHash : ℕ
  data : ℕ
deriving DecidableEq

/-- `types.ExecutionPayloadHeader`. Modelled from the spec: a
commitment-level summary of an ExecutionPayload — all fields except the
transaction list (hence the same block hash), the rest abstracted. -/
structure ExecutionPayloadHeader where
  blockHash : ℕ
  rest : ℕ
deriving DecidableEq

/-- `types.ExecutionPayloadREST` (REST form). Modelled from the spec:
losslessly convertible with the engine form, so it carries the same
block hash and data component. -/
structure ExecutionPayloadREST where
  blockHash : ℕ
  data : ℕ
deriving DecidableEq

/-- Modelled from the spec: `types.PayloadToPayloadHeader` — total on
well-formed payloads, keeps the payload's own block hash, summarizes the
rest. (Fallible in the source, hence the `Option`.) -/
def PayloadToPayloadHeader (p : ExecutionPayloadV1) : Option ExecutionPayloadHeader :=
  some ⟨p.blockHash, p.data⟩

/-- Modelled from the spec: `types.ELPayloadToRESTPayload` — the lossless
engine-form to REST-form conversion. (Fallible in the source.) -/
def ELPayloadToRESTPayload (p : ExecutionPayloadV1) : Option ExecutionPayloadREST :=
  some ⟨p.blockHash, p.data⟩

/-- A value stored in the relay's `recentPayloads` LRU cache. The Go cache
stores `interface{}`; the get-payload handler type-asserts to
`*types.ExecutionPayloadREST`, so the model distinguishes REST-form
entries from any other stored form. -/
inductive CacheValue where
  | rest (p : ExecutionPayloadREST)
  | engineForm (p : ExecutionPayloadV1)
deriving DecidableEq

/-- `types.BuilderBid`: header, fixed value marker (`[32]byte{0x1}`,
abstracted to `1`), and the relay's public key bytes. -/
structure BuilderBid where
  header : ExecutionPayloadHeader
  value : ℕ
  pubkey : List ℕ
deriving DecidableEq

/-- `types.SignedBuilderBid`. -/
structure SignedBuilderBid where
  message : BuilderBid
  signature : ℕ
deriving DecidableEq

/-- `types.GetHeaderResponse`. -/
structure GetHeaderResponse where
  version : String
  data : SignedBuilderBid
deriving DecidableEq

/-- `types.BlindedBeaconBlock`, restricted to what the get-payload
handler reads: the embedded header's block hash
(`Message.Body.ExecutionPayloadHeader.BlockHash`) and the message's
(fallible) hash-tree-root commitment. -/
structure BlindedBeaconBlock where
  slot : ℕ
  proposerIndex : ℕ
  blockHash : ℕ
  htr : Option ℕ
deriving DecidableEq

/-- `types.SignedBlindedBeaconBlock`. -/
structure SignedBlindedBeaconBlock where
  message : BlindedBeaconBlock
  signature : List ℕ
deriving DecidableEq

/-- `types.ValidatorRegistration` message. Modelled from the spec:
pubkey is a 48-byte string, plus fee recipient / gas limit / timestamp;
the message signs via its (fallible) hash-tree-root. -/
structure ValidatorRegistration where
  pubkey : List ℕ
  feeRecipient : ℕ
  gasLimit : ℕ
  timestamp : ℕ
  htr : Option ℕ
deriving DecidableEq

/-- `types.SignedValidatorRegistration`. -/
structure SignedValidatorRegistration where
  message : ValidatorRegistration
  signature : List ℕ
deriving DecidableEq

/-- `types.GetPayloadResponse`: version tag plus the (possibly nil)
REST-form payload. -/
structure GetPayloadResponse where
  version : String
  data : Option ExecutionPayloadREST
deriving DecidableEq

/-! ## Relay backend state and environment -/

/-- The mutable state of `RelayBackend` the handlers touch: the payload
LRU cache and the process-wide last-requested pubkey. -/
structure RelayState where
  recentPayloads : List (ℕ × CacheValue)
  latestPubkey : List ℕ
deriving DecidableEq

/-- The relay's fixed environment: the BLS abstraction, the (external,
SSZ) hash-tree-root of a builder bid, signing with the relay's secret
key (`r.sk.Sign`), the relay's public key bytes (`r.pk`), and
`types.PublicKey.UnmarshalText` for the pubkey path parameter
(modelled from the spec: malformed text yields an error). -/
structure RelayModel where
  bls : BLSModel
  htrBid : BuilderBid → Option ℕ
  sign : ℕ → ℕ
  pk : List ℕ
  decodePubkeyText : List ℕ → Option (List ℕ)

/-- Result of `handleRegisterValidator`: a 400 with plain error text, or
a bare 200. -/
inductive RegisterResult where
  | badRequest (msg : String)
  | ok
deriving DecidableEq

/-- Result of `handleGetHeader`: a 400 with plain error text, or a 200
with the signed bid. -/
inductive GetHeaderResult where
  | badRequest (msg : String)
  | ok (resp : GetHeaderResponse)
deriving DecidableEq

/-- Result of `handleGetPayload`. `badRequestThenEncode` records the
branch where `http.Error` is called without a `return`: the 400 error is
written and the handler then still encodes a JSON response body. -/
inductive GetPayloadResult where
  | badRequest (msg : String)
  | badRequestThenEncode (msg : String) (resp : GetPayloadResponse)
  | ok (resp : GetPayloadResponse)
deriving DecidableEq

/-- The HTTP status code actually sent for a `handleGetPayload` outcome
(`http.Error` writes the 400 header first, so the continued branch still
responds 400 on the wire). -/
def GetPayloadResult.status : GetPayloadResult → ℕ
  | .badRequest _ => 400
  | .badRequestThenEncode _ _ => 400
  | .ok _ => 200

/-! ## Relay handlers -/

/-- `RelayBackend.handleRegisterValidator`. `body` is the JSON-decoded
request body (`none` when decoding fails). The handler never writes any
backend state, which the returned state makes explicit. -/
def handleRegisterValidator (M : RelayModel) (s : RelayState)
    (body : Option SignedValidatorRegistration) : RelayState × RegisterResult :=
  match body with
  | none => (s, .badRequest "json decode error")
  | some payload =>
    if payload.message.pubkey.length ≠ 48 then (s, .badRequest "invalid pubkey")
    else if payload.signature.length ≠ 96 then (s, .badRequest "invalid signature")
    else if verifySignature M.bls payload.message.htr payload.message.pubkey
        payload.signature = (true, none) then (s, .ok)
    else (s, .badRequest "invalid signature")

/-- `RelayBackend.handleGetHeader`. `enginePayload` is the result of the
engine-side cache lookup `r.engine.backend.recentPayloads.Get(parentHash)`
(the engine backend is an external collaborator here); `pubkeyText` is
the raw pubkey path parameter. Source order is preserved: convert to
header and REST forms, add the REST form to the relay cache under the
payload's own block hash, build and sign the bid, and only then parse the
pubkey path parameter into `latestPubkey`. -/
def handleGetHeader (M : RelayModel) (s : RelayState)
    (enginePayload : Option ExecutionPayloadV1) (slot : ℕ) (pubkeyText : List ℕ) :
    RelayState × GetHeaderResult :=
  match enginePayload with
  | none => (s, .badRequest "Cannot get unknown payload")
  | some payload =>
    match PayloadToPayloadHeader payload with
    | none => (s, .badRequest "cannot convert payload to header")
    | some payloadHeader =>
      match ELPayloadToRESTPayload payload with
      | none => (s, .badRequest "cannot convert payload to payloadREST")
      | some payloadREST =>
        let s1 : RelayState :=
          { s with recentPayloads :=
              lruAdd s.recentPayloads payloadHeader.blockHash (.rest payloadREST) }
        let bid : BuilderBid := ⟨payloadHeader, 1, M.pk⟩
        match M.htrBid bid with
        | none => (s1, .badRequest "cannot compute hash tree root")
        | some msg =>
          let sig := M.sign msg
          let response : GetHeaderResponse := ⟨"bellatrix", ⟨bid, sig⟩⟩
          match M.decodePubkeyText pubkeyText with
          | none => (s1, .badRequest "cannot unmarshal pubkey")
          | some pk2 => ({ s1 with latestPubkey := pk2 }, .ok response)

/-- `RelayBackend.handleGetPayload`. `body` is the JSON-decoded request
(`none` when decoding fails). The signature is verified against the
state's `latestPubkey`; the payload is looked up in the relay cache by
the block's embedded header block hash; a failed type assertion to the
REST form writes a 400 but (as in the source, where the branch lacks a
`return`) still encodes a response whose data is nil. -/
def handleGetPayload (M : RelayModel) (s : RelayState)
    (body : Option SignedBlindedBeaconBlock) : RelayState × GetPayloadResult :=
  match body with
  | none => (s, .badRequest "json decode error")
  | some payload =>
    if payload.signature.length ≠ 96 then (s, .badRequest "invalid signature")
    else if verifySignature M.bls payload.message.htr s.latestPubkey
        payload.signature = (true, none) then
      let res := lruGet s.recentPayloads payload.message.blockHash
      match res.1 with
      | none => (s, .badRequest "cannot get unknown payload")
      | some (.rest p) =>
        ({ s with recentPayloads := res.2 }, .ok ⟨"bellatrix", some p⟩)
      | some (.engineForm _) =>
        ({ s with recentPayloads := res.2 },
          .badRequestThenEncode "cannot read to payloadREST" ⟨"bellatrix", none⟩)
    else (s, .badRequest "invalid signature")

/-! ## Concrete fixtures used by witness theorems -/

/-- A concrete BLS instantiation: decoders accept exactly the canonical
lengths (96-byte signatures, 48-byte public keys) and the pairing check
accepts. -/
def demoBLS : BLSModel :=
  ⟨fun l => if l.length = 96 then some 7 else none,
   fun l => if l.length = 48 then some 9 else none,
   fun _ _ _ => true⟩

/-- A concrete relay environment built on `demoBLS`. -/
def demoModel : RelayModel :=
  ⟨demoBLS, fun _ => some 3, fun r => r + 1, List.replicate 48 2,
   fun l => if l.length = 48 then some l else none⟩

/-- A relay state with an empty cache. -/
def demoState : RelayState := ⟨[], List.replicate 48 2⟩

/-- A concrete engine-form payload. -/
def demoPayload : ExecutionPayloadV1 := ⟨100, 99, 5⟩

/-- A well-formed pubkey path parameter. -/
def demoPkText : List ℕ := List.replicate 48 3

/-- A malformed pubkey path parameter. -/
def demoBadPkText : List ℕ := [1]

/-- A signed blinded beacon block referencing `demoPayload`'s block hash. -/
def demoReq : SignedBlindedBeaconBlock := ⟨⟨1, 1, 100, some 11⟩, List.replicate 96 0⟩

/-- A well-formed signed validator registration. -/
def demoReg : SignedValidatorRegistration :=
  ⟨⟨List.replicate 48 4, 0, 0, 0, some 12⟩, List.replicate 96 0⟩

/-- A relay state whose cache holds a non-REST value, exercising the
failed type assertion in the get-payload handler. -/
def demoStateBad : RelayState :=
  ⟨[(100, .engineForm demoPayload)], List.replicate 48 2⟩

/-! ## C1: slot index computation -/

/-- Claim C1 as stated is false: the slot index is computed by rounding,
not flooring, so at wall-clock time `T + k*D + ε` with `D/2 ≤ ε < D` the
computed slot is `k + 1`, not `k`. Concretely with `T = 0`, `D = 12`,
`k = 0`, `ε = 7` (so `0 ≤ ε < D`), the computed slot is `1 ≠ 0`. -/
theorem signedSlot_halfSlot_counterexample :
    signedSlot (0 + 0 * 12 + 7) 0 12 = 1 ∧ (0 : ℤ) ≤ 7 ∧ (7 : ℤ) < 12 ∧ (1 : ℤ) ≠ 0 := by
  refine ⟨?_, by norm_num, by norm_num, by norm_num⟩
  norm_num [signedSlot, goRound]

/-- Claim C1 (amended): the computed slot is
`round((now − genesisTime)/slotDuration)` (definitionally `signedSlot`),
hence at wall-clock time `T + k*D + ε` with `0 ≤ ε < D` it equals `k`
when `2ε < D` and `k + 1` when `D ≤ 2ε`; at time `T − D` it equals
`-1`. -/
theorem signedSlot_index_amended (T D k ε : ℤ) (hD : 0 < D) (hk : 0 ≤ k)
    (hε : 0 ≤ ε) (hεD : ε < D) :
    (2 * ε < D → signedSlot (T + k * D + ε) T D = k) ∧
    (D ≤ 2 * ε → signedSlot (T + k * D + ε) T D = k + 1) ∧
    signedSlot (T - D) T D = -1 := by
  have hD' : (0 : ℚ) < (D : ℚ) := by exact_mod_cast hD
  have hne : (D : ℚ) ≠ 0 := ne_of_gt hD'
  have hε' : (0 : ℚ) ≤ (ε : ℚ) := by exact_mod_cast hε
  have hk' : (0 : ℚ) ≤ (k : ℚ) := by exact_mod_cast hk
  have hεD' : (ε : ℚ) < (D : ℚ) := by exact_mod_cast hεD
  have hdiv : (0 : ℚ) ≤ (ε : ℚ) / D := div_nonneg hε' (le_of_lt hD')
  have hdiv1 : (ε : ℚ) / D < 1 := (div_lt_one hD').mpr hεD'
  have hnn : (0 : ℚ) ≤ (k : ℚ) + (ε : ℚ) / D := by linarith
  have hq : ((T + k * D + ε : ℤ) : ℚ) - (T : ℚ) = (k : ℚ) * D + ε := by push_cast; ring
  have hval : ((k : ℚ) * D + ε) / D = (k : ℚ) + (ε : ℚ) / D := by field_simp
  have hmain : signedSlot (T + k * D + ε) T D = ⌊(k : ℚ) + (ε : ℚ) / D + 1 / 2⌋ := by
    unfold signedSlot
    rw [hq, hval, goRound, if_pos hnn]
  refine ⟨?_, ?_, ?_⟩
  · intro hhalf
    have hlt : (ε : ℚ) / D < 1 / 2 := by
      rw [div_lt_iff₀ hD']
      have h2 : (2 : ℚ) * ε < D := by exact_mod_cast hhalf
      linarith
    rw [hmain]
    refine Int.floor_eq_iff.mpr ⟨by linarith, ?_⟩
    linarith
  · intro hhalf
    have hge : (1 : ℚ) / 2 ≤ (ε : ℚ) / D := by
      rw [le_div_iff₀ hD']
      have h2 : (D : ℚ) ≤ 2 * ε := by exact_mod_cast hhalf
      linarith
    rw [hmain]
    refine Int.floor_eq_iff.mpr ⟨?_, ?_⟩
    · push_cast
      linarith
    · push_cast
      linarith
  · unfold signedSlot
    have hq2 : ((T - D : ℤ) : ℚ) - (T : ℚ) = -(D : ℚ) := by push_cast; ring
    rw [hq2, neg_div, div_self hne]
    rw [goRound, if_neg (by norm_num)]
    have h32 : (-1 : ℚ) - 1 / 2 = -(3 / 2) := by norm_num
    rw [h32]
    exact Int.ceil_eq_iff.mpr ⟨by norm_num, by norm_num⟩

/-- Witness for `signedSlot_index_amended` at `T = 0`, `D = 12`, `k = 3`:
`ε = 5` (first half of the slot) gives slot `3`, `ε = 7` (second half)
gives slot `4`, and time `T − D` gives `-1`. -/
theorem signedSlot_index_amended_witness :
    (0 : ℤ) < 12 ∧ (0 : ℤ) ≤ 3 ∧ (0 : ℤ) ≤ 5 ∧ (5 : ℤ) < 12 ∧ 2 * 5 < (12 : ℤ) ∧
      signedSlot (0 + 3 * 12 + 5) 0 12 = 3 ∧
    (0 : ℤ) ≤ 7 ∧ (7 : ℤ) < 12 ∧ (12 : ℤ) ≤ 2 * 7 ∧
      signedSlot (0 + 3 * 12 + 7) 0 12 = 3 + 1 ∧
      signedSlot (0 - 12) 0 12 = -1 :=
  ⟨by norm_num, by norm_num, by norm_num, by norm_num, by norm_num,
    (signedSlot_index_amended 0 12 3 5 (by norm_num) (by norm_num) (by norm_num)
      (by norm_num)).1 (by norm_num),
    by norm_num, by norm_num, by norm_num,
    (signedSlot_index_amended 0 12 3 7 (by norm_num) (by norm_num) (by norm_num)
      (by norm_num)).2.1 (by norm_num),
    (signedSlot_index_amended 0 12 3 5 (by norm_num) (by norm_num) (by norm_num)
      (by norm_num)).2.2⟩

/-! ## C2: epoch rotation -/

/-- Claim C2 as stated is false in its consequence: after each boundary
the code leaves `safe` equal to `finalized` (both are the head observed
at the second-most-recent boundary), never one boundary apart.
Concretely, with heads `1` and `2` observed at the first and second
boundaries, after two boundaries `finalized = safe = 1`, whereas the
claim, which puts `finalized` two boundaries back and `safe` one
boundary back, requires `safe = 2`. -/
theorem epochRotation_safe_counterexample :
    (runEpochBoundaries ⟨0, 0, 0⟩ (fun i => i + 1) 2).finalizedHash = 1 ∧
    (runEpochBoundaries ⟨0, 0, 0⟩ (fun i => i + 1) 2).safeHash = 1 ∧
    (1 : ℕ) ≠ 2 := by
  refine ⟨rfl, rfl, by norm_num⟩

/-- Claim C2 (amended): on every epoch boundary the driver assigns
`finalized ← nextFinalized`, `safe ← finalized` (the newly assigned
value), `nextFinalized ← current head`; consequently after `n ≥ 2`
boundaries `finalized` and `safe` both equal the head observed at the
second-most-recent boundary, and `nextFinalized` equals the head
observed at the most recent boundary. -/
theorem epochRotation_amended (s : FinalityState) (heads : ℕ → ℕ) (h n : ℕ)
    (hn : 2 ≤ n) :
    epochRotate s h = ⟨s.nextFinalized, s.nextFinalized, h⟩ ∧
    (runEpochBoundaries s heads n).finalizedHash = heads (n - 2) ∧
    (runEpochBoundaries s heads n).safeHash = heads (n - 2) ∧
    (runEpochBoundaries s heads n).nextFinalized = heads (n - 1) := by
  obtain ⟨m, rfl⟩ : ∃ m, n = m + 2 := ⟨n - 2, by omega⟩
  have e1 : runEpochBoundaries s heads (m + 2) =
      epochRotate (runEpochBoundaries s heads (m + 1)) (heads (m + 1)) := rfl
  have e2 : runEpochBoundaries s heads (m + 1) =
      epochRotate (runEpochBoundaries s heads m) (heads m) := rfl
  refine ⟨rfl, ?_, ?_, ?_⟩ <;>
    simp [e1, e2, epochRotate, Nat.add_sub_cancel]

/-- Witness for `epochRotation_amended` after three boundaries with heads
`0, 10, 20`. -/
theorem epochRotation_amended_witness :
    (2 : ℕ) ≤ 3 ∧
      (epochRotate ⟨0, 0, 0⟩ 7 =
          ⟨FinalityState.nextFinalized ⟨0, 0, 0⟩, FinalityState.nextFinalized ⟨0, 0, 0⟩, 7⟩ ∧
        (runEpochBoundaries ⟨0, 0, 0⟩ (fun i => 10 * i) 3).finalizedHash = 10 * (3 - 2) ∧
        (runEpochBoundaries ⟨0, 0, 0⟩ (fun i => 10 * i) 3).safeHash = 10 * (3 - 2) ∧
        (runEpochBoundaries ⟨0, 0, 0⟩ (fun i => 10 * i) 3).nextFinalized = 10 * (3 - 1)) :=
  ⟨by norm_num, epochRotation_amended ⟨0, 0, 0⟩ (fun i => 10 * i) 7 3 (by norm_num)⟩

/-! ## C3: PayloadID handoff -/

/-- Claim C3 as stated is false: a pending PayloadID is not drained
before the gap/invalid/reorg branches are evaluated. Concretely, when
the invalid-hash branch fires (`gap = false`, `invalid = true`) with id
`5` pending, the tick leaves `5` pending for the next tick instead of
dropping it. -/
theorem slotTick_drain_counterexample :
    (slotTick (some 5) false true none).1 = some 5 ∧ some 5 ≠ (none : Option ℕ) := by
  exact ⟨rfl, by simp⟩

/-- Claim C3 (amended): the pending PayloadID is dropped only when the
gap branch fires (the drain sits inside that branch); when the
invalid-hash branch fires it is carried over unchanged to the next tick;
otherwise a pending id is consumed for a proposal before any new
external build, so a tick never leaves a new id outstanding while a
previous one is still pending — at most one is outstanding. -/
theorem slotTick_pending_amended (pending : Option ℕ) (g i : Bool) (prod : Option ℕ) :
    (g = true → slotTick pending g i prod = (none, .gapSlot)) ∧
    (g = false → i = true → slotTick pending g i prod = (pending, .invalidHash)) ∧
    (∀ id, g = false → i = false → pending = some id →
      slotTick pending g i prod = (none, .proposal id)) ∧
    (g = false → i = false → pending = none →
      slotTick pending g i prod = (prod, .externalBlock)) ∧
    (∀ j, (slotTick pending g i prod).1 = some j →
      pending = some j ∨ (pending = none ∧ prod = some j)) := by
  cases g <;> cases i <;> cases pending <;> simp [slotTick]

/-- Witness for `slotTick_pending_amended`: the gap branch drops a
pending id `7`. -/
theorem slotTick_pending_amended_witness :
    slotTick (some 7) true false (some 9) = (none, .gapSlot) :=
  (slotTick_pending_amended (some 7) true false (some 9)).1 rfl

/-! ## Cache and handler helper lemmas -/

/-- An entry just added to the LRU cache is retrievable under its key. -/
theorem lruGet_lruAdd {α : Type} (c : List (ℕ × α)) (k : ℕ) (v : α) :
    (lruGet (lruAdd c k v) k).1 = some v := by
  have hfind : List.find? (fun p => p.1 == k)
      (((k, v) :: c.filter (fun p => p.1 != k)).take relayCacheCapacity) = some (k, v) := by
    rw [show relayCacheCapacity = 9 + 1 from rfl, List.take_succ_cons]
    exact List.find?_cons_of_pos _ (by simp)
  simp [lruGet, lruAdd, hfind]

/-- Whatever happens after the cache add in `handleGetHeader` (bid
hashing, pubkey parsing), the resulting state's cache is the input cache
with the REST payload added under the payload's own block hash. -/
theorem handleGetHeader_state (M : RelayModel) (s : RelayState)
    (e : ExecutionPayloadV1) (slot : ℕ) (pkText : List ℕ) :
    ((handleGetHeader M s (some e) slot pkText).1).recentPayloads =
      lruAdd s.recentPayloads e.blockHash (.rest ⟨e.blockHash, e.data⟩) := by
  unfold handleGetHeader PayloadToPayloadHeader ELPayloadToRESTPayload
  cases hb : M.htrBid ⟨⟨e.blockHash, e.data⟩, 1, M.pk⟩ with
  | none => simp [hb]
  | some m =>
    cases hp : M.decodePubkeyText pkText with
    | none => simp [hb, hp]
    | some pk2 => simp [hb, hp]

/-- The successful path of `handleGetHeader`: cache updated, latest
pubkey recorded from the path parameter, signed bid returned. -/
theorem handleGetHeader_ok (M : RelayModel) (s : RelayState) (e : ExecutionPayloadV1)
    (slot : ℕ) (pkText : List ℕ) (m : ℕ) (pk2 : List ℕ)
    (hb : M.htrBid ⟨⟨e.blockHash, e.data⟩, 1, M.pk⟩ = some m)
    (hp : M.decodePubkeyText pkText = some pk2) :
    handleGetHeader M s (some e) slot pkText =
      (⟨lruAdd s.recentPayloads e.blockHash (.rest ⟨e.blockHash, e.data⟩), pk2⟩,
        .ok ⟨"bellatrix", ⟨⟨⟨e.blockHash, e.data⟩, 1, M.pk⟩, M.sign m⟩⟩) := by
  unfold handleGetHeader PayloadToPayloadHeader ELPayloadToRESTPayload
  simp [hb, hp]

/-- `handleGetPayload` rejects a signature of the wrong length. -/
theorem handleGetPayload_shortSig (M : RelayModel) (s : RelayState)
    (req : SignedBlindedBeaconBlock) (hlen : req.signature.length ≠ 96) :
    handleGetPayload M s (some req) = (s, .badRequest "invalid signature") := by
  simp only [handleGetPayload]
  rw [if_pos hlen]

/-- `handleGetPayload` rejects when verification against the state's
`latestPubkey` does not return `(true, nil)`. -/
theorem handleGetPayload_sigFail (M : RelayModel) (s : RelayState)
    (req : SignedBlindedBeaconBlock)
    (hsig : verifySignature M.bls req.message.htr s.latestPubkey req.signature ≠ (true, none)) :
    handleGetPayload M s (some req) = (s, .badRequest "invalid signature") := by
  simp only [handleGetPayload]
  by_cases hlen : req.signature.length ≠ 96
  · rw [if_pos hlen]
  · rw [if_neg hlen, if_neg hsig]

/-- `handleGetPayload` on a cache miss. -/
theorem handleGetPayload_miss (M : RelayModel) (s : RelayState)
    (req : SignedBlindedBeaconBlock)
    (hlen : req.signature.length = 96)
    (hsig : verifySignature M.bls req.message.htr s.latestPubkey req.signature = (true, none))
    (hmiss : (lruGet s.recentPayloads req.message.blockHash).1 = none) :
    handleGetPayload M s (some req) = (s, .badRequest "cannot get unknown payload") := by
  simp only [handleGetPayload]
  rw [if_neg (by simp [hlen]), if_pos hsig]
  simp [hmiss]

/-- `handleGetPayload` on a cache hit holding a REST-form payload. -/
theorem handleGetPayload_hit (M : RelayModel) (s : RelayState)
    (req : SignedBlindedBeaconBlock) (p : ExecutionPayloadREST)
    (hlen : req.signature.length = 96)
    (hsig : verifySignature M.bls req.message.htr s.latestPubkey req.signature = (true, none))
    (hhit : (lruGet s.recentPayloads req.message.blockHash).1 = some (.rest p)) :
    handleGetPayload M s (some req) =
      ({ s with recentPayloads := (lruGet s.recentPayloads req.message.blockHash).2 },
        .ok ⟨"bellatrix", some p⟩) := by
  simp only [handleGetPayload]
  rw [if_neg (by simp [hlen]), if_pos hsig]
  simp [hhit]

/-- `handleGetPayload` on a cache hit holding a non-REST value: the type
assertion fails, a 400 is written, and the handler still encodes a
response with nil data. -/
theorem handleGetPayload_assertFail (M : RelayModel) (s : RelayState)
    (req : SignedBlindedBeaconBlock) (v : ExecutionPayloadV1)
    (hlen : req.signature.length = 96)
    (hsig : verifySignature M.bls req.message.htr s.latestPubkey req.signature = (true, none))
    (hhit : (lruGet s.recentPayloads req.message.blockHash).1 = some (.engineForm v)) :
    handleGetPayload M s (some req) =
      ({ s with recentPayloads := (lruGet s.recentPayloads req.message.blockHash).2 },
        .badRequestThenEncode "cannot read to payloadREST" ⟨"bellatrix", none⟩) := by
  simp only [handleGetPayload]
  rw [if_neg (by simp [hlen]), if_pos hsig]
  simp [hhit]

/-! ## C6: signature verification contract -/

/-- Claim C6: `verifySignature` returns `(true, nil)` exactly when the
commitment computes, both byte strings decode, and the pairing check
accepts; each failure short-circuits to `(false, non-nil error)` in
checking order (commitment, then signature decode, then pubkey decode).
The exported `VerifySignature` is the same function. -/
theorem verifySignature_contract (B : BLSModel) (htr : Option ℕ) (pk s : List ℕ) :
    (verifySignature B htr pk s = (true, none) ↔
      ∃ m sig key, htr = some m ∧ B.signatureFromBytes s = some sig ∧
        B.publicKeyFromBytes pk = some key ∧ B.verify sig key m = true) ∧
    (htr = none → verifySignature B htr pk s = (false, some .commitment)) ∧
    (∀ m, htr = some m → B.signatureFromBytes s = none →
      verifySignature B htr pk s = (false, some .sigDecode)) ∧
    (∀ m sig, htr = some m → B.signatureFromBytes s = some sig →
      B.publicKeyFromBytes pk = none →
      verifySignature B htr pk s = (false, some .pkDecode)) ∧
    VerifySignature B htr pk s = verifySignature B htr pk s := by
  cases htr with
  | none => simp [verifySignature, VerifySignature]
  | some m =>
    cases hs : B.signatureFromBytes s with
    | none => simp [verifySignature, VerifySignature, hs]
    | some sig =>
      cases hp : B.publicKeyFromBytes pk with
      | none => simp [verifySignature, VerifySignature, hs, hp]
      | some key => simp [verifySignature, VerifySignature, hs, hp]

/-- Witness for `verifySignature_contract`: a commitment failure yields
`(false, commitment error)`, and a well-formed input verifies. -/
theorem verifySignature_contract_witness :
    verifySignature demoBLS none [] [] = (false, some .commitment) ∧
    verifySignature demoBLS (some 1) (List.replicate 48 0) (List.replicate 96 0) = (true, none) :=
  ⟨(verifySignature_contract demoBLS none [] []).2.1 rfl,
   (verifySignature_contract demoBLS (some 1) (List.replicate 48 0) (List.replicate 96 0)).1.mpr
     ⟨1, 7, 9, rfl, by decide, by decide, rfl⟩⟩

/-! ## C4: get-header / get-payload round trip -/

/-- Claim C4: a payload cached by the get-header handler under its own
block hash is returned, byte-identical, by a subsequent get-payload
request whose correctly signed blinded block references that hash. -/
theorem getHeader_getPayload_roundTrip (M : RelayModel) (s : RelayState)
    (e : ExecutionPayloadV1) (slot : ℕ) (pkText : List ℕ) (req : SignedBlindedBeaconBlock)
    (href : req.message.blockHash = e.blockHash)
    (hlen : req.signature.length = 96)
    (hsig : verifySignature M.bls req.message.htr
        ((handleGetHeader M s (some e) slot pkText).1).latestPubkey req.signature =
      (true, none)) :
    (handleGetPayload M ((handleGetHeader M s (some e) slot pkText).1) (some req)).2 =
      .ok ⟨"bellatrix", some ⟨e.blockHash, e.data⟩⟩ ∧
    (lruGet ((handleGetHeader M s (some e) slot pkText).1).recentPayloads e.blockHash).1 =
      some (.rest ⟨e.blockHash, e.data⟩) := by
  have hc := handleGetHeader_state M s e slot pkText
  have hhit : (lruGet ((handleGetHeader M s (some e) slot pkText).1).recentPayloads
      req.message.blockHash).1 = some (.rest ⟨e.blockHash, e.data⟩) := by
    rw [href, hc]
    exact lruGet_lruAdd _ _ _
  rw [handleGetPayload_hit M _ req ⟨e.blockHash, e.data⟩ hlen hsig hhit]
  refine ⟨rfl, ?_⟩
  rw [hc]
  exact lruGet_lruAdd _ _ _

/-- Witness for `getHeader_getPayload_roundTrip` on the demo fixtures. -/
theorem getHeader_getPayload_roundTrip_witness :
    (handleGetPayload demoModel
        ((handleGetHeader demoModel demoState (some demoPayload) 1 demoPkText).1)
        (some demoReq)).2 =
      .ok ⟨"bellatrix", some ⟨demoPayload.blockHash, demoPayload.data⟩⟩ ∧
    (lruGet ((handleGetHeader demoModel demoState (some demoPayload) 1 demoPkText).1).recentPayloads
        demoPayload.blockHash).1 =
      some (.rest ⟨demoPayload.blockHash, demoPayload.data⟩) :=
  getHeader_getPayload_roundTrip demoModel demoState demoPayload 1 demoPkText demoReq
    (by decide) (by decide) (by decide)

/-! ## C5: verification key comes from the last get-header call -/

/-- Claim C5: the get-payload handler rejects with "invalid signature"
exactly when verification against the state's `latestPubkey` — the key
recorded by the most recent get-header call, not anything carried by the
get-payload request — does not return `(true, nil)`; and a successful
get-header call records its parsed pubkey path parameter as
`latestPubkey`. -/
theorem getPayload_uses_latestPubkey (M : RelayModel) (s : RelayState)
    (req : SignedBlindedBeaconBlock)
    (e : ExecutionPayloadV1) (slot : ℕ) (pkText pk2 : List ℕ) (m : ℕ)
    (hlen : req.signature.length = 96)
    (hb : M.htrBid ⟨⟨e.blockHash, e.data⟩, 1, M.pk⟩ = some m)
    (hdec : M.decodePubkeyText pkText = some pk2) :
    ((handleGetPayload M s (some req)).2 = .badRequest "invalid signature" ↔
      verifySignature M.bls req.message.htr s.latestPubkey req.signature ≠ (true, none)) ∧
    ((handleGetHeader M s (some e) slot pkText).1).latestPubkey = pk2 := by
  constructor
  · by_cases hsig :
        verifySignature M.bls req.message.htr s.latestPubkey req.signature = (true, none)
    · refine iff_of_false ?_ (by simp [hsig])
      cases hhit : (lruGet s.recentPayloads req.message.blockHash).1 with
      | none =>
        rw [handleGetPayload_miss M s req hlen hsig hhit]
        simp
      | some v =>
        cases v with
        | rest p =>
          rw [handleGetPayload_hit M s req p hlen hsig hhit]
          simp
        | engineForm w =>
          rw [handleGetPayload_assertFail M s req w hlen hsig hhit]
          simp
    · rw [handleGetPayload_sigFail M s req hsig]
      exact iff_of_true rfl hsig
  · rw [handleGetHeader_ok M s e slot pkText m pk2 hb hdec]

/-- Witness for `getPayload_uses_latestPubkey` on the demo fixtures. -/
theorem getPayload_uses_latestPubkey_witness :
    ((handleGetPayload demoModel demoState (some demoReq)).2 = .badRequest "invalid signature" ↔
      verifySignature demoModel.bls demoReq.message.htr demoState.latestPubkey
        demoReq.signature ≠ (true, none)) ∧
    ((handleGetHeader demoModel demoState (some demoPayload) 1 demoPkText).1).latestPubkey =
      demoPkText :=
  getPayload_uses_latestPubkey demoModel demoState demoReq demoPayload 1 demoPkText demoPkText 3
    (by decide) rfl (by decide)

/-! ## C7: validator registration -/

/-- Claim C7: registration returns 400 on a body that fails to decode,
a pubkey whose length is not 48, a signature whose length is not 96, or
a failing signature verification (checked in that order); otherwise it
returns 200, and in every case the relay state is unchanged. -/
theorem handleRegisterValidator_contract (M : RelayModel) (s : RelayState)
    (body : Option SignedValidatorRegistration) :
    (handleRegisterValidator M s body).1 = s ∧
    (body = none →
      (handleRegisterValidator M s body).2 = .badRequest "json decode error") ∧
    (∀ p, body = some p → p.message.pubkey.length ≠ 48 →
      (handleRegisterValidator M s body).2 = .badRequest "invalid pubkey") ∧
    (∀ p, body = some p → p.message.pubkey.length = 48 → p.signature.length ≠ 96 →
      (handleRegisterValidator M s body).2 = .badRequest "invalid signature") ∧
    (∀ p, body = some p → p.message.pubkey.length = 48 → p.signature.length = 96 →
      verifySignature M.bls p.message.htr p.message.pubkey p.signature ≠ (true, none) →
      (handleRegisterValidator M s body).2 = .badRequest "invalid signature") ∧
    (∀ p, body = some p → p.message.pubkey.length = 48 → p.signature.length = 96 →
      verifySignature M.bls p.message.htr p.message.pubkey p.signature = (true, none) →
      (handleRegisterValidator M s body).2 = .ok) := by
  refine ⟨?_, ?_, ?_, ?_, ?_, ?_⟩
  · cases body with
    | none => rfl
    | some p =>
      simp only [handleRegisterValidator]
      split_ifs <;> rfl
  · intro h
    subst h
    rfl
  · intro p h hpk
    subst h
    simp only [handleRegisterValidator]
    rw [if_pos hpk]
  · intro p h hpk hsg
    subst h
    simp only [handleRegisterValidator]
    rw [if_neg (by simp [hpk]), if_pos hsg]
  · intro p h hpk hsg hv
    subst h
    simp only [handleRegisterValidator]
    rw [if_neg (by simp [hpk]), if_neg (by simp [hsg]), if_neg hv]
  · intro p h hpk hsg hv
    subst h
    simp only [handleRegisterValidator]
    rw [if_neg (by simp [hpk]), if_neg (by simp [hsg]), if_pos hv]

/-- Witness for `handleRegisterValidator_contract`: a well-formed,
correctly signed registration is accepted with the state unchanged. -/
theorem handleRegisterValidator_contract_witness :
    (handleRegisterValidator demoModel demoState (some demoReg)).1 = demoState ∧
    (handleRegisterValidator demoModel demoState (some demoReg)).2 = .ok :=
  ⟨(handleRegisterValidator_contract demoModel demoState (some demoReg)).1,
   (handleRegisterValidator_contract demoModel demoState (some demoReg)).2.2.2.2.2 demoReg
     rfl (by decide) (by decide) (by decide)⟩

/-! ## C8: get-payload cache miss always rejects -/

/-- Claim C8: when the blinded block's embedded header block hash has no
entry in the relay cache, get-payload responds 400 — regardless of the
request's signature validity. -/
theorem getPayload_cacheMiss_rejected (M : RelayModel) (s : RelayState)
    (req : SignedBlindedBeaconBlock)
    (hmiss : (lruGet s.recentPayloads req.message.blockHash).1 = none) :
    (handleGetPayload M s (some req)).2.status = 400 := by
  by_cases hlen : req.signature.length = 96
  · by_cases hsig :
        verifySignature M.bls req.message.htr s.latestPubkey req.signature = (true, none)
    · rw [handleGetPayload_miss M s req hlen hsig hmiss]
      rfl
    · rw [handleGetPayload_sigFail M s req hsig]
      rfl
  · rw [handleGetPayload_shortSig M s req hlen]
    rfl

/-- Witness for `getPayload_cacheMiss_rejected`: the empty cache rejects
a correctly signed request. -/
theorem getPayload_cacheMiss_rejected_witness :
    (lruGet demoState.recentPayloads demoReq.message.blockHash).1 = none ∧
    (handleGetPayload demoModel demoState (some demoReq)).2.status = 400 :=
  ⟨by decide, getPayload_cacheMiss_rejected demoModel demoState demoReq (by decide)⟩

/-! ## C9: get-header side effects precede the pubkey parse -/

/-- Claim C9: a get-header request whose parent hash has a cached engine
payload but whose pubkey path parameter fails to parse responds 400, yet
the REST-form payload has already been added to the relay cache under
the payload's own block hash and is not rolled back. -/
theorem getHeader_malformedPubkey_sideEffects (M : RelayModel) (s : RelayState)
    (e : ExecutionPayloadV1) (slot : ℕ) (pkText : List ℕ) (m : ℕ)
    (hb : M.htrBid ⟨⟨e.blockHash, e.data⟩, 1, M.pk⟩ = some m)
    (hp : M.decodePubkeyText pkText = none) :
    handleGetHeader M s (some e) slot pkText =
      ({ s with recentPayloads :=
          lruAdd s.recentPayloads e.blockHash (.rest ⟨e.blockHash, e.data⟩) },
        .badRequest "cannot unmarshal pubkey") ∧
    (lruGet (lruAdd s.recentPayloads e.blockHash (.rest ⟨e.blockHash, e.data⟩))
        e.blockHash).1 = some (.rest ⟨e.blockHash, e.data⟩) := by
  constructor
  · unfold handleGetHeader PayloadToPayloadHeader ELPayloadToRESTPayload
    simp [hb, hp]
  · exact lruGet_lruAdd _ _ _

/-- Witness for `getHeader_malformedPubkey_sideEffects` with a malformed
pubkey path parameter. -/
theorem getHeader_malformedPubkey_sideEffects_witness :
    handleGetHeader demoModel demoState (some demoPayload) 1 demoBadPkText =
      ({ demoState with recentPayloads :=
          (lruAdd demoState.recentPayloads demoPayload.blockHash
            (.rest ⟨demoPayload.blockHash, demoPayload.data⟩)) },
        .badRequest "cannot unmarshal pubkey") ∧
    (lruGet (lruAdd demoState.recentPayloads demoPayload.blockHash
        (.rest ⟨demoPayload.blockHash, demoPayload.data⟩)) demoPayload.blockHash).1 =
      some (.rest ⟨demoPayload.blockHash, demoPayload.data⟩) :=
  getHeader_malformedPubkey_sideEffects demoModel demoState demoPayload 1 demoBadPkText 3
    rfl (by decide)

/-! ## C10: failed type assertion in get-payload is not terminal -/

/-- Claim C10: when the cached value under the block's header hash is not
REST-form, the get-payload handler writes a 400 error but does not stop:
it continues and encodes a JSON response whose data field is nil (the
wire status stays 400, already written by the error). -/
theorem getPayload_assertFailure_nonterminal (M : RelayModel) (s : RelayState)
    (req : SignedBlindedBeaconBlock) (v : ExecutionPayloadV1)
    (hlen : req.signature.length = 96)
    (hsig : verifySignature M.bls req.message.htr s.latestPubkey req.signature = (true, none))
    (hhit : (lruGet s.recentPayloads req.message.blockHash).1 = some (.engineForm v)) :
    (handleGetPayload M s (some req)).2 =
      .badRequestThenEncode "cannot read to payloadREST" ⟨"bellatrix", none⟩ ∧
    (handleGetPayload M s (some req)).2.status = 400 := by
  rw [handleGetPayload_assertFail M s req v hlen hsig hhit]
  exact ⟨rfl, rfl⟩

/-- Witness for `getPayload_assertFailure_nonterminal` on a cache
holding an engine-form value. -/
theorem getPayload_assertFailure_nonterminal_witness :
    (handleGetPayload demoModel demoStateBad (some demoReq)).2 =
      .badRequestThenEncode "cannot read to payloadREST" ⟨"bellatrix", none⟩ ∧
    (handleGetPayload demoModel demoStateBad (some demoReq)).2.status = 400 :=
  getPayload_assertFailure_nonterminal demoModel demoStateBad demoReq demoPayload
    (by decide) (by decide) (by decide)
